import Mathlib

/-!
Verification of the LLM-provider core of the `meet_note` repository
(`src/app/llm_strategies/`): model catalogs, per-provider pricing,
`send_message` state effects, the `generate_full_response` continuation
loop, and the strategy factory.

The Python code is shallowly embedded:
* Python `int` token counters become `Int`; Python `float` prices are
  embedded as exact rationals `ℚ` (the price table entries and the
  multipliers 1.25 / 0.5 / 0.1 are all decimal literals in the source,
  represented exactly).
* A strategy instance's mutable attributes (`input_tokens`,
  `output_tokens`, `cache_create_tokens`, `cache_read_tokens`, `model`)
  become the record `StrategyInstance`, threaded explicitly.
* The network call inside `send_message` becomes an explicit `client`
  oracle argument; a raised `ProviderError` / `ValueError` becomes the
  `error` constructor of `Except` (or `ApiOutcome.providerError`).
* In `generate_full_response`, the per-call results of `self.send_message`
  are abstracted by an oracle `Nat → ChunkResult` giving the k-th call's
  returned content, finish reason, and the usage counters that call stored
  in the snapshot (exactly the test-double model used by the spec's
  properties P4-P6).
-/

/-- Embeds `llm_strategies/model.py`: an immutable catalog entry. -/
structure Model where
  name : String
  output_max_tokens : Int
  price_input : ℚ
  price_output : ℚ
deriving DecidableEq, Repr

/-- The class of a concrete strategy (Python dynamic dispatch picks the
subclass override by class identity). -/
inductive ProviderKind where
  | anthropic
  | openai
  | deepseek
deriving DecidableEq, Repr

/-- Embeds the mutable attributes set up by
`BaseChatModelStrategy.__init__` (`base_chat_model_strategy.py`, lines
42-57) plus the class tag.  The `client` object and OpenAI's unused
`reasoning_tokens` attribute carry no observable state for the embedded
operations and are omitted. -/
structure StrategyInstance where
  kind : ProviderKind
  api_key : String
  models : List Model
  input_tokens : Int
  output_tokens : Int
  cache_create_tokens : Int
  cache_read_tokens : Int
  model : Option String
deriving DecidableEq, Repr

/-- A conversation message dict `\x7b"role": ..., "content": ...\x7d`. -/
structure Msg where
  role : String
  content : String
deriving DecidableEq, Repr

/-- Catalog of `AnthropicChatStrategy.__init__` (`anthropic_strategy.py`,
lines 37-74). -/
def anthropic_models : List Model :=
  [ { name := "claude-3-7-sonnet-latest", output_max_tokens := 8192,
      price_input := 3.0, price_output := 15.0 },
    { name := "claude-3-5-sonnet-latest", output_max_tokens := 8192,
      price_input := 3.0, price_output := 15.0 },
    { name := "claude-3-5-haiku-latest", output_max_tokens := 4096,
      price_input := 0.8, price_output := 4.0 },
    { name := "claude-3-5-sonnet-20240620", output_max_tokens := 8192,
      price_input := 3.0, price_output := 15.0 },
    { name := "claude-3-opus-latest", output_max_tokens := 4096,
      price_input := 15.0, price_output := 75.0 },
    { name := "claude-3-haiku-20240307", output_max_tokens := 4096,
      price_input := 0.25, price_output := 1.25 } ]

/-- Catalog of `OpenAIChatStrategy.__init__` (`openai_strategy.py`,
lines 37-98). -/
def openai_models : List Model :=
  [ { name := "gpt-4.1", output_max_tokens := 32768,
      price_input := 2.0, price_output := 8.0 },
    { name := "gpt-4o", output_max_tokens := 16384,
      price_input := 2.5, price_output := 10.0 },
    { name := "gpt-4.1-mini", output_max_tokens := 32768,
      price_input := 0.40, price_output := 1.60 },
    { name := "gpt-4o-mini", output_max_tokens := 16384,
      price_input := 0.15, price_output := 0.6 },
    { name := "gpt-4.1-nano", output_max_tokens := 32768,
      price_input := 0.10, price_output := 0.40 },
    { name := "o3-mini", output_max_tokens := 100000,
      price_input := 1.10, price_output := 4.40 },
    { name := "o3", output_max_tokens := 100000,
      price_input := 10.0, price_output := 40.0 },
    { name := "o4-mini", output_max_tokens := 100000,
      price_input := 1.10, price_output := 4.40 },
    { name := "o1", output_max_tokens := 32768,
      price_input := 15.00, price_output := 60.00 },
    { name := "o1-preview", output_max_tokens := 32768,
      price_input := 15.00, price_output := 60.00 } ]

/-- Catalog of `DeepseekChatStrategy.__init__` (`deepseek_strategy.py`,
lines 37-52). -/
def deepseek_models : List Model :=
  [ { name := "deepseek-chat", output_max_tokens := 4096,
      price_input := 0.14, price_output := 0.28 },
    { name := "deepseek-reasoner", output_max_tokens := 4096,
      price_input := 0.55, price_output := 2.19 } ]

/-- Fresh `AnthropicChatStrategy(api_key)`: base attributes zeroed,
`model = None`, catalog installed. -/
def mkAnthropic (api_key : String) : StrategyInstance :=
  { kind := .anthropic, api_key := api_key, models := anthropic_models,
    input_tokens := 0, output_tokens := 0, cache_create_tokens := 0,
    cache_read_tokens := 0, model := none }

/-- Fresh `OpenAIChatStrategy(api_key)`. -/
def mkOpenAI (api_key : String) : StrategyInstance :=
  { kind := .openai, api_key := api_key, models := openai_models,
    input_tokens := 0, output_tokens := 0, cache_create_tokens := 0,
    cache_read_tokens := 0, model := none }

/-- Fresh `DeepseekChatStrategy(api_key)`. -/
def mkDeepseek (api_key : String) : StrategyInstance :=
  { kind := .deepseek, api_key := api_key, models := deepseek_models,
    input_tokens := 0, output_tokens := 0, cache_create_tokens := 0,
    cache_read_tokens := 0, model := none }

/-- `BaseChatModelStrategy.get_models` (lines 59-68): catalog names in
declaration order. -/
def get_models (st : StrategyInstance) : List String :=
  st.models.map (fun m => m.name)

/-- `BaseChatModelStrategy.get_output_max_tokens` (lines 70-96).  If
`model_name` is not among the catalog names the source does NOT raise: it
returns `0` for an empty catalog, else the FIRST model's
`output_max_tokens`.  For a present name, `available_models.index` finds
the first match, so the first matching entry's ceiling is returned. -/
def get_output_max_tokens (st : StrategyInstance) (model_name : String) : Int :=
  if (get_models st).contains model_name then
    match st.models.find? (fun m => m.name == model_name) with
    | some m => m.output_max_tokens
    | none => 0
  else
    match st.models with
    | [] => 0
    | m0 :: _ => m0.output_max_tokens

/-- `BaseChatModelStrategy.get_input_tokens` (lines 98-107). -/
def get_input_tokens (st : StrategyInstance) : Int := st.input_tokens

/-- `BaseChatModelStrategy.get_output_tokens` (lines 109-118). -/
def get_output_tokens (st : StrategyInstance) : Int := st.output_tokens

/-- `BaseChatModelStrategy.get_cache_create_tokens` (lines 120-129). -/
def get_cache_create_tokens (st : StrategyInstance) : Int := st.cache_create_tokens

/-- `BaseChatModelStrategy.get_cache_read_tokens` (lines 131-140). -/
def get_cache_read_tokens (st : StrategyInstance) : Int := st.cache_read_tokens

/-- `BaseChatModelStrategy.get_full_price` (lines 142-177).  The base
implementation guards: `model is None or not models` returns `0.0`, and
the `list.index` lookup is wrapped in `try/except ValueError` returning
`0.0`, so the base pricing is total.  `find?` returns the first
name-matching entry, exactly like `get_models().index(self.model)`. -/
def base_get_full_price (st : StrategyInstance) : ℚ :=
  match st.model with
  | none => 0
  | some m =>
    if st.models = [] then 0
    else
      match st.models.find? (fun mo => mo.name == m) with
      | none => 0
      | some model_info =>
        (st.input_tokens : ℚ) * model_info.price_input / 1000000
        + (st.output_tokens : ℚ) * model_info.price_output / 1000000
        + (st.cache_create_tokens : ℚ) * model_info.price_input / 1000000
        + (st.cache_read_tokens : ℚ) * model_info.price_input * 0.1 / 1000000

/-- `AnthropicChatStrategy.get_full_price` (`anthropic_strategy.py`,
lines 77-111).  Unlike the base override, only `model is None` is
guarded; `self.get_models().index(self.model)` raises `ValueError` when
the set model name is absent from the catalog, embedded as
`Except.error "ValueError"`.  Cache-create tokens cost 1.25 x input
price, cache-read tokens 0.1 x input price. -/
def anthropic_get_full_price (st : StrategyInstance) : Except String ℚ :=
  match st.model with
  | none => .ok 0
  | some m =>
    match st.models.find? (fun mo => mo.name == m) with
    | none => .error "ValueError"
    | some model_info =>
      .ok ((st.input_tokens : ℚ) * model_info.price_input / 1000000
        + (st.output_tokens : ℚ) * model_info.price_output / 1000000
        + (st.cache_create_tokens : ℚ) * model_info.price_input * 1.25 / 1000000
        + (st.cache_read_tokens : ℚ) * model_info.price_input * 0.1 / 1000000)

/-- `OpenAIChatStrategy.get_full_price` (`openai_strategy.py`, lines
102-134).  Same unguarded lookup; cache-create at input price,
cache-read at 0.5 x input price. -/
def openai_get_full_price (st : StrategyInstance) : Except String ℚ :=
  match st.model with
  | none => .ok 0
  | some m =>
    match st.models.find? (fun mo => mo.name == m) with
    | none => .error "ValueError"
    | some model_info =>
      .ok ((st.input_tokens : ℚ) * model_info.price_input / 1000000
        + (st.output_tokens : ℚ) * model_info.price_output / 1000000
        + (st.cache_create_tokens : ℚ) * model_info.price_input / 1000000
        + (st.cache_read_tokens : ℚ) * model_info.price_input * 0.5 / 1000000)

/-- `DeepseekChatStrategy.get_full_price` (`deepseek_strategy.py`, lines
55-93).  Same unguarded lookup; cache-create at input price; cache-read
at the fixed absolute price `0.14` per million for `deepseek-reasoner`,
else 0.1 x input price. -/
def deepseek_get_full_price (st : StrategyInstance) : Except String ℚ :=
  match st.model with
  | none => .ok 0
  | some m =>
    match st.models.find? (fun mo => mo.name == m) with
    | none => .error "ValueError"
    | some model_info =>
      let cache_read_price : ℚ :=
        if m = "deepseek-reasoner" then 0.14 else model_info.price_input * 0.1
      .ok ((st.input_tokens : ℚ) * model_info.price_input / 1000000
        + (st.output_tokens : ℚ) * model_info.price_output / 1000000
        + (st.cache_create_tokens : ℚ) * model_info.price_input / 1000000
        + (st.cache_read_tokens : ℚ) * cache_read_price / 1000000)

/-- Dynamic dispatch of `get_full_price`: every concrete strategy
overrides the base method, so an instance's class selects one of the
three overrides above. -/
def get_full_price (st : StrategyInstance) : Except String ℚ :=
  match st.kind with
  | .anthropic => anthropic_get_full_price st
  | .openai => openai_get_full_price st
  | .deepseek => deepseek_get_full_price st

/-- A content block of the Anthropic request: the source builds
`\x7b"type": "text", "text": ..., ["cache_control": \x7b"type": "ephemeral"\x7d]\x7d`
per message; `cache_control = some "ephemeral"` marks the hint. -/
structure CachedMessage where
  role : String
  text : String
  cache_control : Option String
deriving DecidableEq, Repr

/-- Inner loop of `AnthropicChatStrategy.send_message` (lines 144-165):
walks the messages with index `i` and a counter of used cache-control
breakpoints; a message gets the ephemeral hint when
`(i == 0 or i >= message_count - 6) and used < 4 and role == "user"`.
Python's `i >= message_count - 6` on ints is always true once
`message_count <= 6`, matched by truncated `Nat` subtraction. -/
def cashedMessagesGo (message_count : Nat) :
    List Msg → Nat → Nat → List CachedMessage
  | [], _, _ => []
  | m :: rest, i, used =>
    if (i = 0 ∨ message_count - 6 ≤ i) ∧ used < 4 ∧ m.role = "user" then
      { role := m.role, text := m.content, cache_control := some "ephemeral" }
        :: cashedMessagesGo message_count rest (i + 1) (used + 1)
    else
      { role := m.role, text := m.content, cache_control := none }
        :: cashedMessagesGo message_count rest (i + 1) used

/-- The `cashed_messages` list built by `AnthropicChatStrategy.send_message`. -/
def cashed_messages (messages : List Msg) : List CachedMessage :=
  cashedMessagesGo messages.length messages 0 0

/-- Request body of `client.messages.create` in
`AnthropicChatStrategy.send_message` (lines 167-174). -/
structure AnthropicRequest where
  model : String
  system : String
  messages : List CachedMessage
  temperature : ℚ
  max_tokens : Int
  top_p : ℚ

/-- The fields of the Anthropic response the source reads:
`usage.input_tokens`, `usage.output_tokens`,
`usage.cache_creation_input_tokens`, `usage.cache_read_input_tokens`,
`content[0].text` and `stop_reason`. -/
structure AnthropicResponse where
  input_tokens : Int
  output_tokens : Int
  cache_creation_input_tokens : Int
  cache_read_input_tokens : Int
  content_first_text : String
  stop_reason : Option String

/-- Outcome of one network call: a provider response, or a raised
`ProviderError` (network/auth/rate-limit failure). -/
inductive ApiOutcome (R : Type) where
  | ok (response : R)
  | providerError

/-- `AnthropicChatStrategy.send_message` (lines 113-184).  The first
statement is `self.model = model_name`; the network call is the `client`
oracle; on `ProviderError` the exception propagates leaving the updated
`model` but the previous token counters; on success the four counters are
overwritten from the response usage and `(content[0].text, stop_reason)`
is returned. -/
def anthropic_send_message (client : AnthropicRequest → ApiOutcome AnthropicResponse)
    (st : StrategyInstance) (system_prompt : String) (messages : List Msg)
    (model_name : String) (max_tokens : Int) (temperature : ℚ) :
    StrategyInstance × Except Unit (String × Option String) :=
  let st1 := { st with model := some model_name }
  let req : AnthropicRequest :=
    { model := model_name, system := system_prompt,
      messages := cashed_messages messages, temperature := temperature,
      max_tokens := max_tokens, top_p := 1 }
  match client req with
  | .providerError => (st1, .error ())
  | .ok r =>
    ({ st1 with
        input_tokens := r.input_tokens,
        output_tokens := r.output_tokens,
        cache_create_tokens := r.cache_creation_input_tokens,
        cache_read_tokens := r.cache_read_input_tokens },
     .ok (r.content_first_text, r.stop_reason))

/-- Request body of `client.chat.completions.create` in
`OpenAIChatStrategy.send_message`: the models `o1-mini`, `o3-mini`, `o1`
get only `max_completion_tokens`; all others get `max_tokens`,
`temperature`, `top_p`, `frequency_penalty`, `presence_penalty`. -/
structure OpenAIRequest where
  model : String
  messages : List Msg
  max_completion_tokens : Option Int
  max_tokens : Option Int
  temperature : Option ℚ
  top_p : Option ℚ
  frequency_penalty : Option ℚ
  presence_penalty : Option ℚ

/-- The fields of the OpenAI response the source reads:
`choices[0].message.content` (may be null), `choices[0].finish_reason`,
`usage.completion_tokens`, `usage.prompt_tokens`,
`usage.prompt_tokens_details.cached_tokens`. -/
structure OpenAIResponse where
  content : Option String
  finish_reason : Option String
  completion_tokens : Int
  prompt_tokens : Int
  cached_tokens : Int

/-- `OpenAIChatStrategy.send_message` (lines 136-198).  `self.model` is
set first; a non-empty system prompt is prepended as a `developer`
message; cache-create is fixed to 0, cache-read is the cached prompt
tokens, and input is `prompt_tokens - cached_tokens`. -/
def openai_send_message (client : OpenAIRequest → ApiOutcome OpenAIResponse)
    (st : StrategyInstance) (system_prompt : String) (messages : List Msg)
    (model_name : String) (max_tokens : Int) (temperature : ℚ) :
    StrategyInstance × Except Unit (Option String × Option String) :=
  let st1 := { st with model := some model_name }
  let full_messages :=
    (if system_prompt.isEmpty then ([] : List Msg)
     else [{ role := "developer", content := system_prompt }]) ++ messages
  let req : OpenAIRequest :=
    if ["o1-mini", "o3-mini", "o1"].contains model_name then
      { model := model_name, messages := full_messages,
        max_completion_tokens := some max_tokens, max_tokens := none,
        temperature := none, top_p := none, frequency_penalty := none,
        presence_penalty := none }
    else
      { model := model_name, messages := full_messages,
        max_completion_tokens := none, max_tokens := some max_tokens,
        temperature := some temperature, top_p := some 1,
        frequency_penalty := some 0, presence_penalty := some 0 }
  match client req with
  | .providerError => (st1, .error ())
  | .ok r =>
    let cache_read := r.cached_tokens
    ({ st1 with
        output_tokens := r.completion_tokens,
        cache_create_tokens := 0,
        cache_read_tokens := cache_read,
        input_tokens := r.prompt_tokens - cache_read },
     .ok (r.content, r.finish_reason))

/-- The fields of the Deepseek response the source reads:
`usage.completion_tokens`, `usage.prompt_cache_miss_tokens`,
`usage.prompt_cache_hit_tokens`, `usage.prompt_tokens`,
`choices[0].message.content`, `choices[0].finish_reason`. -/
structure DeepseekResponse where
  content : Option String
  finish_reason : Option String
  completion_tokens : Int
  prompt_tokens : Int
  prompt_cache_miss_tokens : Int
  prompt_cache_hit_tokens : Int

/-- Request body of `client.chat.completions.create` in
`DeepseekChatStrategy.send_message` (lines 129-137). -/
structure DeepseekRequest where
  model : String
  messages : List Msg
  temperature : ℚ
  max_tokens : Int
  top_p : ℚ
  frequency_penalty : ℚ
  presence_penalty : ℚ

/-- `DeepseekChatStrategy.send_message` (lines 95-151).  `self.model` is
set first; the system prompt is always prepended as a `system` message;
cache-create is the cache-miss bucket, cache-read the cache-hit bucket,
and input is `prompt_tokens - miss - hit`. -/
def deepseek_send_message (client : DeepseekRequest → ApiOutcome DeepseekResponse)
    (st : StrategyInstance) (system_prompt : String) (messages : List Msg)
    (model_name : String) (max_tokens : Int) (temperature : ℚ) :
    StrategyInstance × Except Unit (Option String × Option String) :=
  let st1 := { st with model := some model_name }
  let full_messages := ({ role := "system", content := system_prompt } : Msg) :: messages
  let req : DeepseekRequest :=
    { model := model_name, messages := full_messages,
      temperature := temperature, max_tokens := max_tokens, top_p := 1,
      frequency_penalty := 0, presence_penalty := 0 }
  match client req with
  | .providerError => (st1, .error ())
  | .ok r =>
    let cc := r.prompt_cache_miss_tokens
    let cr := r.prompt_cache_hit_tokens
    ({ st1 with
        output_tokens := r.completion_tokens,
        cache_create_tokens := cc,
        cache_read_tokens := cr,
        input_tokens := r.prompt_tokens - cc - cr },
     .ok (r.content, r.finish_reason))

/-- The four usage counters one `send_message` call stores in the
snapshot. -/
structure Usage where
  input_tokens : Int
  output_tokens : Int
  cache_create_tokens : Int
  cache_read_tokens : Int
deriving DecidableEq, Repr

/-- Componentwise sum, mirroring the four `aggregated_* += ...` lines. -/
def Usage.add (a b : Usage) : Usage :=
  { input_tokens := a.input_tokens + b.input_tokens,
    output_tokens := a.output_tokens + b.output_tokens,
    cache_create_tokens := a.cache_create_tokens + b.cache_create_tokens,
    cache_read_tokens := a.cache_read_tokens + b.cache_read_tokens }

/-- The all-zero usage (the loop's initial aggregates). -/
def Usage.zero : Usage :=
  { input_tokens := 0, output_tokens := 0, cache_create_tokens := 0,
    cache_read_tokens := 0 }

/-- What the k-th internal `send_message` call of
`generate_full_response` produces, in the test-double model of the
spec's P4-P6: the returned `(content, finish_reason)` pair and the usage
counters that call stored in the snapshot (read back via
`get_input_tokens()` etc. by the aggregation step). -/
structure ChunkResult where
  content : Option String
  stop_reason : Option String
  usage : Usage

/-- Models Python `str.strip()` with no argument: drop leading and
trailing whitespace characters. -/
def pyStrip (s : String) : String :=
  ⟨((s.data.dropWhile Char.isWhitespace).reverse.dropWhile Char.isWhitespace).reverse⟩

/-- Python truthiness of `chunk_content` in `if chunk_content:` — false
for `None` and for the empty string. -/
def optTruthy : Option String → Bool
  | none => false
  | some s => !s.isEmpty

/-- Python `chunk_content or ""`. -/
def optStr : Option String → String
  | none => ""
  | some s => s

/-- The `previous_content` placeholder characters, brace-delimited as in
the Python format string. -/
def placeholderChars : List Char := "\x7bprevious_content\x7d".data

/-- Worker for `pyFormat`: scans the template characters, replacing each
occurrence of the placeholder.  The fuel argument (the template length)
only makes the recursion structural; every step consumes at least one
character and one unit of fuel. -/
def pyFormatGo (repl : List Char) : Nat → List Char → List Char
  | _, [] => []
  | 0, l => l
  | fuel + 1, c :: rest =>
    if placeholderChars.isPrefixOf (c :: rest) then
      repl ++ pyFormatGo repl fuel ((c :: rest).drop placeholderChars.length)
    else
      c :: pyFormatGo repl fuel rest

/-- Models Python `template.format(previous_content=prev)` for the
templates this code passes: every occurrence of the `previous_content`
placeholder is replaced by `prev`; a template without the placeholder
(such as the default) is returned unchanged. -/
def pyFormat (template prev : String) : String :=
  ⟨pyFormatGo prev.data template.data.length template.data⟩

/-- The default `continuation_prompt_template` argument. -/
def default_continuation_template : String :=
  "Please continue exactly from where it left off."

/-- Result trace of one `generate_full_response` run: the returned text,
the aggregated usage, how many `send_message` calls were made, the final
`current_messages` conversation, and whether the still-truncated warning
was logged. -/
structure GenOut where
  text : String
  agg : Usage
  calls : Nat
  conv : List Msg
  warned : Bool

/-- The `for attempt in range(max_continuation_attempts)` loop shared
verbatim by the three strategies (e.g. `anthropic_strategy.py` lines
240-281), parameterized by the provider's truncation sentinel.  `fuel` is
the number of remaining iterations (`max_continuation_attempts -
attempt`), so `is_last_attempt = (attempt == max_continuation_attempts -
1)` is exactly `fuel = 1`, i.e. the pattern's tail `fuel` being 0.  Each
iteration: call the double, add its stored counters into the aggregates,
append truthy content, then either append the (assistant, user)
continuation pair and loop, or break (warning when truncated on the last
attempt). -/
def genLoop (sentinel tmpl : String) (oracle : Nat → ChunkResult) :
    Nat → Nat → String → Usage → List Msg → Nat → GenOut
  | 0, _, full, agg, conv, calls =>
    { text := full, agg := agg, calls := calls, conv := conv, warned := false }
  | fuel + 1, attempt, full, agg, conv, calls =>
    let res := oracle attempt
    let agg2 := agg.add res.usage
    let full2 := if optTruthy res.content then full ++ optStr res.content else full
    let truncated_by_length := res.stop_reason = some sentinel
    if truncated_by_length ∧ ¬fuel = 0 then
      genLoop sentinel tmpl oracle fuel (attempt + 1) full2 agg2
        (conv ++ [{ role := "assistant", content := optStr res.content },
                  { role := "user", content := pyFormat tmpl (optStr res.content) }])
        (calls + 1)
    else
      { text := full2, agg := agg2, calls := calls + 1, conv := conv,
        warned := decide (truncated_by_length ∧ fuel = 0) }

/-- `generate_full_response` (identical in the three strategies up to the
sentinel; e.g. `anthropic_strategy.py` lines 186-291).  Sets
`self.model`, starts the conversation with the initial user message,
runs the loop (`range` of a non-positive `max_continuation_attempts` is
empty, matched by `Int.toNat`), overwrites the snapshot counters with
the aggregates, and returns the accumulated text stripped.  The unused
`system_prompt`, `max_tokens_per_chunk` and `temperature` arguments are
forwarded to `send_message`, which the `oracle` abstracts. -/
def generate_full_response (sentinel : String) (oracle : Nat → ChunkResult)
    (st : StrategyInstance) (system_prompt initial_user_message model_name : String)
    (max_tokens_per_chunk : Int) (temperature : ℚ)
    (max_continuation_attempts : Int) (continuation_prompt_template : String) :
    GenOut × StrategyInstance :=
  let conv0 : List Msg := [{ role := "user", content := initial_user_message }]
  let out := genLoop sentinel continuation_prompt_template oracle
    max_continuation_attempts.toNat 0 "" Usage.zero conv0 0
  ({ out with text := pyStrip out.text },
   { st with
     model := some model_name,
     input_tokens := out.agg.input_tokens,
     output_tokens := out.agg.output_tokens,
     cache_create_tokens := out.agg.cache_create_tokens,
     cache_read_tokens := out.agg.cache_read_tokens })

/-- `AnthropicChatStrategy.generate_full_response`: sentinel
`"max_tokens"` (line 262). -/
def anthropic_generate_full_response := generate_full_response "max_tokens"

/-- `OpenAIChatStrategy.generate_full_response`: sentinel `"length"`
(line 278). -/
def openai_generate_full_response := generate_full_response "length"

/-- `DeepseekChatStrategy.generate_full_response`: sentinel `"length"`
(line 232). -/
def deepseek_generate_full_response := generate_full_response "length"

/-- Models Python `str.lower()` for the ASCII provider identifiers this
code compares. -/
def pyLower (s : String) : String := ⟨s.data.map Char.toLower⟩

/-- `strategy_factory.create_strategy` (lines 13-43): lowercase the
provider id, match it against the three known providers, otherwise raise
`ValueError` with the unknown-provider message. -/
def create_strategy (provider : String) (api_key : String) :
    Except String StrategyInstance :=
  let p := pyLower provider
  if p = "anthropic" then .ok (mkAnthropic api_key)
  else if p = "openai" then .ok (mkOpenAI api_key)
  else if p = "deepseek" then .ok (mkDeepseek api_key)
  else .error ("Неизвестный провайдер LLM: " ++ p)

/-- `strategy_factory.get_available_providers` (lines 46-55). -/
def get_available_providers : List String :=
  ["anthropic", "openai", "deepseek"]

/-- Concatenation, in call order, of the contents of `n` successive
double results starting at call index `start` (a null content
contributes the empty string). -/
def chunkConcat (oracle : Nat → ChunkResult) : Nat → Nat → String
  | _, 0 => ""
  | start, n + 1 => optStr (oracle start).content ++ chunkConcat oracle (start + 1) n

/-- Componentwise sum of the usage counters of `n` successive double
results starting at call index `start`. -/
def usageSum (oracle : Nat → ChunkResult) : Nat → Nat → Usage
  | _, 0 => Usage.zero
  | start, n + 1 => (oracle start).usage.add (usageSum oracle (start + 1) n)

/-- The (assistant, user) message pairs appended by `n` successive
continuation rounds starting at call index `start`. -/
def contPairs (tmpl : String) (oracle : Nat → ChunkResult) : Nat → Nat → List Msg
  | _, 0 => []
  | start, n + 1 =>
    { role := "assistant", content := optStr (oracle start).content }
      :: { role := "user", content := pyFormat tmpl (optStr (oracle start).content) }
      :: contPairs tmpl oracle (start + 1) n

/-- A test double whose every call returns the same content, finish
reason and usage counters. -/
def constOracle (content : Option String) (reason : Option String) (u : Usage) :
    Nat → ChunkResult :=
  fun _ => { content := content, stop_reason := reason, usage := u }

/-- A client double that always raises `ProviderError`. -/
def failingClient (R : Type) : AnthropicRequest → ApiOutcome R := fun _ => .providerError

/-- A client double for the OpenAI request shape that always raises. -/
def failingOpenAIClient (R : Type) : OpenAIRequest → ApiOutcome R := fun _ => .providerError

/-- A client double for the Deepseek request shape that always raises. -/
def failingDeepseekClient (R : Type) : DeepseekRequest → ApiOutcome R := fun _ => .providerError

deriving instance DecidableEq for Except

lemma string_append_empty (s : String) : s ++ "" = s := by
  cases s with
  | mk data =>
    show String.mk (data ++ []) = String.mk data
    rw [List.append_nil]

lemma string_append_assoc (a b c : String) : a ++ b ++ c = a ++ (b ++ c) := by
  cases a with
  | mk da =>
    cases b with
    | mk db =>
      cases c with
      | mk dc =>
        show String.mk (da ++ db ++ dc) = String.mk (da ++ (db ++ dc))
        rw [List.append_assoc]

lemma usage_add_zero (u : Usage) : u.add Usage.zero = u := by
  cases u; simp [Usage.add, Usage.zero]

lemma usage_zero_add (u : Usage) : Usage.zero.add u = u := by
  cases u; simp [Usage.add, Usage.zero]

lemma usage_add_assoc (a b c : Usage) : (a.add b).add c = a.add (b.add c) := by
  cases a; cases b; cases c; simp [Usage.add]; omega

lemma optTruthy_append (full : String) (c : Option String) :
    (if optTruthy c then full ++ optStr c else full) = full ++ optStr c := by
  cases c with
  | none => simp [optTruthy, optStr, string_append_empty]
  | some s =>
    by_cases hs : s.isEmpty
    · have : s = "" := (String.isEmpty_iff s).mp hs
      subst this
      simp [optTruthy, optStr, string_append_empty]
    · simp [optTruthy, optStr, hs]

lemma contPairs_length (tmpl : String) (oracle : Nat → ChunkResult) :
    ∀ n start, (contPairs tmpl oracle start n).length = 2 * n := by
  intro n
  induction n with
  | zero => intro start; simp [contPairs]
  | succ k ih => intro start; simp [contPairs, ih]; omega

lemma genLoop_calls_ge (s tmpl : String) (o : Nat → ChunkResult) :
    ∀ (fuel attempt : Nat) (full : String) (agg : Usage) (conv : List Msg) (calls : Nat),
      calls ≤ (genLoop s tmpl o fuel attempt full agg conv calls).calls := by
  intro fuel
  induction fuel with
  | zero => intro attempt full agg conv calls; simp [genLoop]
  | succ n ih =>
    intro attempt full agg conv calls
    simp only [genLoop]
    split
    · exact le_trans (Nat.le_succ calls) (ih (attempt + 1) _ _ _ (calls + 1))
    · simp

lemma genLoop_calls_le (s tmpl : String) (o : Nat → ChunkResult) :
    ∀ (fuel attempt : Nat) (full : String) (agg : Usage) (conv : List Msg) (calls : Nat),
      (genLoop s tmpl o fuel attempt full agg conv calls).calls ≤ calls + fuel := by
  intro fuel
  induction fuel with
  | zero => intro attempt full agg conv calls; simp [genLoop]
  | succ n ih =>
    intro attempt full agg conv calls
    simp only [genLoop]
    split
    · exact le_trans (ih (attempt + 1) _ _ _ (calls + 1)) (by omega)
    · simp

lemma genLoop_calls_pos (s tmpl : String) (o : Nat → ChunkResult) :
    ∀ (fuel attempt : Nat) (full : String) (agg : Usage) (conv : List Msg) (calls : Nat),
      fuel ≠ 0 → calls + 1 ≤ (genLoop s tmpl o fuel attempt full agg conv calls).calls := by
  intro fuel
  induction fuel with
  | zero => intro attempt full agg conv calls h; exact absurd rfl h
  | succ n ih =>
    intro attempt full agg conv calls _
    simp only [genLoop]
    split
    · exact le_trans (Nat.le_refl _) (genLoop_calls_ge s tmpl o n (attempt + 1) _ _ _ (calls + 1))
    · simp

lemma genLoop_all_trunc (s tmpl : String) (o : Nat → ChunkResult)
    (htr : ∀ k, (o k).stop_reason = some s) :
    ∀ (fuel attempt : Nat) (full : String) (agg : Usage) (conv : List Msg) (calls : Nat),
      (genLoop s tmpl o fuel attempt full agg conv calls).calls = calls + fuel := by
  intro fuel
  induction fuel with
  | zero => intro attempt full agg conv calls; simp [genLoop]
  | succ n ih =>
    intro attempt full agg conv calls
    simp only [genLoop]
    by_cases hn : n = 0
    · subst hn
      rw [if_neg (by simp [htr attempt])]
    · rw [if_pos ⟨htr attempt, hn⟩, ih]
      omega

lemma genLoop_text (s tmpl : String) (o : Nat → ChunkResult) :
    ∀ (fuel attempt : Nat) (full : String) (agg : Usage) (conv : List Msg) (calls : Nat),
      (genLoop s tmpl o fuel attempt full agg conv calls).text
        = full ++ chunkConcat o attempt
            ((genLoop s tmpl o fuel attempt full agg conv calls).calls - calls) := by
  intro fuel
  induction fuel with
  | zero =>
    intro attempt full agg conv calls
    simp [genLoop, chunkConcat, string_append_empty]
  | succ n ih =>
    intro attempt full agg conv calls
    simp only [genLoop]
    split
    · rw [ih]
      have hge := genLoop_calls_ge s tmpl o n (attempt + 1)
        (if optTruthy (o attempt).content then full ++ optStr (o attempt).content else full)
        (agg.add (o attempt).usage)
        (conv ++ [{ role := "assistant", content := optStr (o attempt).content },
                  { role := "user", content := pyFormat tmpl (optStr (o attempt).content) }])
        (calls + 1)
      set out := genLoop s tmpl o n (attempt + 1)
        (if optTruthy (o attempt).content then full ++ optStr (o attempt).content else full)
        (agg.add (o attempt).usage)
        (conv ++ [{ role := "assistant", content := optStr (o attempt).content },
                  { role := "user", content := pyFormat tmpl (optStr (o attempt).content) }])
        (calls + 1) with hout
      have hd : out.calls - calls = (out.calls - (calls + 1)) + 1 := by omega
      rw [hd, chunkConcat, optTruthy_append, string_append_assoc]
    · simp only [GenOut.mk.injEq]
      have h1 : calls + 1 - calls = 1 := by omega
      rw [h1, chunkConcat, chunkConcat, optTruthy_append, string_append_empty]

lemma genLoop_agg (s tmpl : String) (o : Nat → ChunkResult) :
    ∀ (fuel attempt : Nat) (full : String) (agg : Usage) (conv : List Msg) (calls : Nat),
      (genLoop s tmpl o fuel attempt full agg conv calls).agg
        = agg.add (usageSum o attempt
            ((genLoop s tmpl o fuel attempt full agg conv calls).calls - calls)) := by
  intro fuel
  induction fuel with
  | zero =>
    intro attempt full agg conv calls
    simp [genLoop, usageSum, usage_add_zero]
  | succ n ih =>
    intro attempt full agg conv calls
    simp only [genLoop]
    split
    · rw [ih]
      have hge := genLoop_calls_ge s tmpl o n (attempt + 1)
        (if optTruthy (o attempt).content then full ++ optStr (o attempt).content else full)
        (agg.add (o attempt).usage)
        (conv ++ [{ role := "assistant", content := optStr (o attempt).content },
                  { role := "user", content := pyFormat tmpl (optStr (o attempt).content) }])
        (calls + 1)
      set out := genLoop s tmpl o n (attempt + 1)
        (if optTruthy (o attempt).content then full ++ optStr (o attempt).content else full)
        (agg.add (o attempt).usage)
        (conv ++ [{ role := "assistant", content := optStr (o attempt).content },
                  { role := "user", content := pyFormat tmpl (optStr (o attempt).content) }])
        (calls + 1) with hout
      have hd : out.calls - calls = (out.calls - (calls + 1)) + 1 := by omega
      rw [hd, usageSum, ← usage_add_assoc]
    · simp only [GenOut.mk.injEq]
      have h1 : calls + 1 - calls = 1 := by omega
      rw [h1, usageSum, usageSum, usage_add_zero]

lemma genLoop_conv (s tmpl : String) (o : Nat → ChunkResult) :
    ∀ (fuel attempt : Nat) (full : String) (agg : Usage) (conv : List Msg) (calls : Nat),
      (genLoop s tmpl o fuel attempt full agg conv calls).conv
        = conv ++ contPairs tmpl o attempt
            ((genLoop s tmpl o fuel attempt full agg conv calls).calls - calls - 1) := by
  intro fuel
  induction fuel with
  | zero =>
    intro attempt full agg conv calls
    simp [genLoop, contPairs]
  | succ n ih =>
    intro attempt full agg conv calls
    simp only [genLoop]
    by_cases hc : ((o attempt).stop_reason = some s ∧ ¬n = 0)
    · rw [if_pos hc, ih]
      have hpos := genLoop_calls_pos s tmpl o n (attempt + 1)
        (if optTruthy (o attempt).content then full ++ optStr (o attempt).content else full)
        (agg.add (o attempt).usage)
        (conv ++ [{ role := "assistant", content := optStr (o attempt).content },
                  { role := "user", content := pyFormat tmpl (optStr (o attempt).content) }])
        (calls + 1) hc.2
      set out := genLoop s tmpl o n (attempt + 1)
        (if optTruthy (o attempt).content then full ++ optStr (o attempt).content else full)
        (agg.add (o attempt).usage)
        (conv ++ [{ role := "assistant", content := optStr (o attempt).content },
                  { role := "user", content := pyFormat tmpl (optStr (o attempt).content) }])
        (calls + 1) with hout
      have hd : out.calls - calls - 1 = (out.calls - (calls + 1) - 1) + 1 := by omega
      rw [hd, contPairs]
      simp
    · rw [if_neg hc]
      simp only [GenOut.mk.injEq]
      have h1 : calls + 1 - calls - 1 = 0 := by omega
      rw [h1, contPairs]
      simp

lemma string_empty_append (s : String) : "" ++ s = s := rfl

lemma generate_calls_le (sentinel : String) (oracle : Nat → ChunkResult)
    (st : StrategyInstance) (system_prompt initial_user_message model_name : String)
    (mt : Int) (tp : ℚ) (N : Int) (tmpl : String) :
    (generate_full_response sentinel oracle st system_prompt initial_user_message
        model_name mt tp N tmpl).1.calls ≤ N.toNat := by
  have h := genLoop_calls_le sentinel tmpl oracle N.toNat 0 ""
    Usage.zero [{ role := "user", content := initial_user_message }] 0
  simpa [generate_full_response] using h

lemma generate_calls_all_trunc (sentinel : String) (oracle : Nat → ChunkResult)
    (st : StrategyInstance) (system_prompt initial_user_message model_name : String)
    (mt : Int) (tp : ℚ) (N : Int) (tmpl : String)
    (htr : ∀ k, (oracle k).stop_reason = some sentinel) :
    (generate_full_response sentinel oracle st system_prompt initial_user_message
        model_name mt tp N tmpl).1.calls = N.toNat := by
  have h := genLoop_all_trunc sentinel tmpl oracle htr N.toNat 0 ""
    Usage.zero [{ role := "user", content := initial_user_message }] 0
  simpa [generate_full_response] using h

lemma generate_text_eq (sentinel : String) (oracle : Nat → ChunkResult)
    (st : StrategyInstance) (system_prompt initial_user_message model_name : String)
    (mt : Int) (tp : ℚ) (N : Int) (tmpl : String) :
    (generate_full_response sentinel oracle st system_prompt initial_user_message
        model_name mt tp N tmpl).1.text
      = pyStrip (chunkConcat oracle 0
          ((generate_full_response sentinel oracle st system_prompt initial_user_message
              model_name mt tp N tmpl).1.calls)) := by
  have h := genLoop_text sentinel tmpl oracle N.toNat 0 ""
    Usage.zero [{ role := "user", content := initial_user_message }] 0
  rw [string_empty_append] at h
  simp only [generate_full_response, Nat.sub_zero] at h ⊢
  rw [h]

lemma generate_final_state (sentinel : String) (oracle : Nat → ChunkResult)
    (st : StrategyInstance) (system_prompt initial_user_message model_name : String)
    (mt : Int) (tp : ℚ) (N : Int) (tmpl : String) :
    (generate_full_response sentinel oracle st system_prompt initial_user_message
        model_name mt tp N tmpl).2.model = some model_name
    ∧ (generate_full_response sentinel oracle st system_prompt initial_user_message
        model_name mt tp N tmpl).2.input_tokens
      = (usageSum oracle 0 ((generate_full_response sentinel oracle st system_prompt
          initial_user_message model_name mt tp N tmpl).1.calls)).input_tokens
    ∧ (generate_full_response sentinel oracle st system_prompt initial_user_message
        model_name mt tp N tmpl).2.output_tokens
      = (usageSum oracle 0 ((generate_full_response sentinel oracle st system_prompt
          initial_user_message model_name mt tp N tmpl).1.calls)).output_tokens
    ∧ (generate_full_response sentinel oracle st system_prompt initial_user_message
        model_name mt tp N tmpl).2.cache_create_tokens
      = (usageSum oracle 0 ((generate_full_response sentinel oracle st system_prompt
          initial_user_message model_name mt tp N tmpl).1.calls)).cache_create_tokens
    ∧ (generate_full_response sentinel oracle st system_prompt initial_user_message
        model_name mt tp N tmpl).2.cache_read_tokens
      = (usageSum oracle 0 ((generate_full_response sentinel oracle st system_prompt
          initial_user_message model_name mt tp N tmpl).1.calls)).cache_read_tokens := by
  have h := genLoop_agg sentinel tmpl oracle N.toNat 0 ""
    Usage.zero [{ role := "user", content := initial_user_message }] 0
  rw [usage_zero_add] at h
  simp only [generate_full_response, Nat.sub_zero] at h ⊢
  rw [h]
  simp

lemma generate_conv_eq (sentinel : String) (oracle : Nat → ChunkResult)
    (st : StrategyInstance) (system_prompt initial_user_message model_name : String)
    (mt : Int) (tp : ℚ) (N : Int) (tmpl : String) :
    (generate_full_response sentinel oracle st system_prompt initial_user_message
        model_name mt tp N tmpl).1.conv
      = [{ role := "user", content := initial_user_message }]
          ++ contPairs tmpl oracle 0
              ((generate_full_response sentinel oracle st system_prompt
                  initial_user_message model_name mt tp N tmpl).1.calls - 1) := by
  have h := genLoop_conv sentinel tmpl oracle N.toNat 0 ""
    Usage.zero [{ role := "user", content := initial_user_message }] 0
  simp only [generate_full_response, Nat.sub_zero] at h ⊢
  rw [h]

lemma generate_nonpos (sentinel : String) (oracle : Nat → ChunkResult)
    (st : StrategyInstance) (system_prompt initial_user_message model_name : String)
    (mt : Int) (tp : ℚ) (N : Int) (tmpl : String) (hN : N ≤ 0) :
    (generate_full_response sentinel oracle st system_prompt initial_user_message
        model_name mt tp N tmpl).1.calls = 0
    ∧ (generate_full_response sentinel oracle st system_prompt initial_user_message
        model_name mt tp N tmpl).1.text = ""
    ∧ (generate_full_response sentinel oracle st system_prompt initial_user_message
        model_name mt tp N tmpl).2.input_tokens = 0
    ∧ (generate_full_response sentinel oracle st system_prompt initial_user_message
        model_name mt tp N tmpl).2.output_tokens = 0
    ∧ (generate_full_response sentinel oracle st system_prompt initial_user_message
        model_name mt tp N tmpl).2.cache_create_tokens = 0
    ∧ (generate_full_response sentinel oracle st system_prompt initial_user_message
        model_name mt tp N tmpl).2.cache_read_tokens = 0 := by
  have h0 : N.toNat = 0 := by omega
  simp [generate_full_response, h0, genLoop, Usage.zero, pyStrip]

/-- C1, counterexample: the Anthropic strategy with its snapshot model
set to a name absent from the catalog does not return `0.0` from
`get_full_price` — the unguarded `list.index` raises `ValueError`. -/
theorem claim_C1_counterexample :
    get_full_price { mkAnthropic "key" with model := some "no-such-model" }
      = Except.error "ValueError" := rfl

/-- C1, amended: the base-class `get_full_price` returns `0.0` for an
unset or unknown model; the three concrete overrides return `0.0` only
while the model is unset (`None`), and raise `ValueError` whenever the
snapshot's model is a string absent from the catalog, for arbitrary
token counters. -/
theorem claim_C1_amended :
    ∀ (st : StrategyInstance),
      (st.model = none →
        anthropic_get_full_price st = .ok 0
        ∧ openai_get_full_price st = .ok 0
        ∧ deepseek_get_full_price st = .ok 0
        ∧ base_get_full_price st = 0)
      ∧ (∀ name, st.model = some name →
          st.models.find? (fun mo => mo.name == name) = none →
            anthropic_get_full_price st = .error "ValueError"
            ∧ openai_get_full_price st = .error "ValueError"
            ∧ deepseek_get_full_price st = .error "ValueError"
            ∧ base_get_full_price st = 0) := by
  intro st
  constructor
  · intro h
    refine ⟨?_, ?_, ?_, ?_⟩ <;>
      simp [anthropic_get_full_price, openai_get_full_price,
        deepseek_get_full_price, base_get_full_price, h]
  · intro name h hf
    refine ⟨?_, ?_, ?_, ?_⟩ <;>
      simp [anthropic_get_full_price, openai_get_full_price,
        deepseek_get_full_price, base_get_full_price, h, hf]

/-- C1, witness for the amended claim at a concrete input: an Anthropic
strategy whose model is set to the unknown name `"zzz"` raises. -/
theorem claim_C1_amended_witness :
    anthropic_get_full_price { mkAnthropic "k" with model := some "zzz" }
      = .error "ValueError" :=
  ((claim_C1_amended _).2 "zzz" rfl (by rfl)).1

/-- C5: for the Anthropic strategy with any catalog model set, the price
is `inputs*priceInput/1e6 + outputs*priceOutput/1e6 +
cacheCreate*priceInput*1.25/1e6 + cacheRead*priceInput*0.1/1e6` — a pure
function of the four counters and the model name; in particular for the
`priceInput = 3.0` model with counters `(0, 0, 200, 1000)` the cost is
exactly `0.00105`. -/
theorem claim_C5 :
    (∀ (api_key name : String) (mi : Model),
      anthropic_models.find? (fun mo => mo.name == name) = some mi →
      ∀ (i o cc cr : Int),
        anthropic_get_full_price { mkAnthropic api_key with
          input_tokens := i, output_tokens := o, cache_create_tokens := cc,
          cache_read_tokens := cr, model := some name }
        = .ok ((i : ℚ) * mi.price_input / 1000000
            + (o : ℚ) * mi.price_output / 1000000
            + (cc : ℚ) * mi.price_input * 1.25 / 1000000
            + (cr : ℚ) * mi.price_input * 0.1 / 1000000))
    ∧ (∀ api_key : String,
        anthropic_get_full_price { mkAnthropic api_key with
          cache_create_tokens := 200, cache_read_tokens := 1000,
          model := some "claude-3-7-sonnet-latest" }
        = .ok 0.00105) := by
  constructor
  · intro api_key name mi hf i o cc cr
    simp [anthropic_get_full_price, mkAnthropic, hf]
  · intro api_key
    simp [anthropic_get_full_price, mkAnthropic, anthropic_models]
    norm_num

/-- C5, witness: the formula instantiated at the concrete Scenario-B
counters. -/
theorem claim_C5_witness :
    anthropic_get_full_price { mkAnthropic "k" with
        input_tokens := 0, output_tokens := 0, cache_create_tokens := 200,
        cache_read_tokens := 1000, model := some "claude-3-7-sonnet-latest" }
      = .ok (((0 : Int) : ℚ) * (3.0 : ℚ) / 1000000
          + ((0 : Int) : ℚ) * (15.0 : ℚ) / 1000000
          + ((200 : Int) : ℚ) * (3.0 : ℚ) * 1.25 / 1000000
          + ((1000 : Int) : ℚ) * (3.0 : ℚ) * 0.1 / 1000000) :=
  claim_C5.1 "k" "claude-3-7-sonnet-latest"
    { name := "claude-3-7-sonnet-latest", output_max_tokens := 8192,
      price_input := 3.0, price_output := 15.0 }
    rfl 0 0 200 1000

/-- C6: the Deepseek strategy prices cache-read tokens at the fixed
absolute `0.14` dollars per million for `deepseek-reasoner` (not a
multiple of its `0.55` input price) and at `priceInput * 0.1` for the
default `deepseek-chat` model; cache-create tokens are priced at exactly
the input price for both. -/
theorem claim_C6 :
    (∀ (api_key : String) (i o cc cr : Int),
      deepseek_get_full_price { mkDeepseek api_key with
          input_tokens := i, output_tokens := o, cache_create_tokens := cc,
          cache_read_tokens := cr, model := some "deepseek-reasoner" }
        = .ok ((i : ℚ) * (0.55 : ℚ) / 1000000 + (o : ℚ) * (2.19 : ℚ) / 1000000
            + (cc : ℚ) * (0.55 : ℚ) / 1000000 + (cr : ℚ) * (0.14 : ℚ) / 1000000))
    ∧ (∀ (api_key : String) (i o cc cr : Int),
      deepseek_get_full_price { mkDeepseek api_key with
          input_tokens := i, output_tokens := o, cache_create_tokens := cc,
          cache_read_tokens := cr, model := some "deepseek-chat" }
        = .ok ((i : ℚ) * (0.14 : ℚ) / 1000000 + (o : ℚ) * (0.28 : ℚ) / 1000000
            + (cc : ℚ) * (0.14 : ℚ) / 1000000
            + (cr : ℚ) * ((0.14 : ℚ) * 0.1) / 1000000))
    ∧ (0.14 : ℚ) ≠ (0.55 : ℚ) * 0.1 := by
  refine ⟨?_, ?_, by norm_num⟩
  · intro api_key i o cc cr
    simp [deepseek_get_full_price, mkDeepseek, deepseek_models]
  · intro api_key i o cc cr
    simp [deepseek_get_full_price, mkDeepseek, deepseek_models]

/-- C7, counterexample: looking up the ceiling of a name absent from the
Anthropic catalog does not fail — it silently returns the FIRST catalog
entry's ceiling (8192), which is not even the ceiling of every catalog
model. -/
theorem claim_C7_counterexample :
    get_output_max_tokens (mkAnthropic "key") "no-such-model" = 8192
      ∧ get_output_max_tokens (mkAnthropic "key") "claude-3-opus-latest" = 4096 := by
  constructor <;> rfl

/-- C7, amended: for a model name present in the catalog,
`get_output_max_tokens` returns the declared `output_max_tokens` of the
first matching entry; for an absent name it does not raise `UnknownModel`
but falls back to the first catalog entry's ceiling, or `0` when the
catalog is empty. -/
theorem claim_C7_amended :
    ∀ (st : StrategyInstance) (name : String),
      ((get_models st).contains name = true →
        ∀ mi, st.models.find? (fun m => m.name == name) = some mi →
          get_output_max_tokens st name = mi.output_max_tokens)
      ∧ ((get_models st).contains name = false → st.models = [] →
          get_output_max_tokens st name = 0)
      ∧ ((get_models st).contains name = false →
          ∀ m0 rest, st.models = m0 :: rest →
            get_output_max_tokens st name = m0.output_max_tokens) := by
  intro st name
  refine ⟨?_, ?_, ?_⟩
  · intro hc mi hf
    unfold get_output_max_tokens
    rw [if_pos hc, hf]
  · intro hc he
    unfold get_output_max_tokens
    rw [if_neg (by simpa using hc), he]
  · intro hc m0 rest he
    unfold get_output_max_tokens
    rw [if_neg (by simpa using hc), he]

/-- C7, witness for the amended claim: a present name returns its own
declared ceiling, an absent name falls back to the first entry's. -/
theorem claim_C7_amended_witness :
    get_output_max_tokens (mkAnthropic "k") "claude-3-opus-latest" = 4096
      ∧ get_output_max_tokens (mkAnthropic "k") "nope" = 8192 :=
  ⟨(claim_C7_amended (mkAnthropic "k") "claude-3-opus-latest").1 rfl
      { name := "claude-3-opus-latest", output_max_tokens := 4096,
        price_input := 15.0, price_output := 75.0 } rfl,
   (claim_C7_amended (mkAnthropic "k") "nope").2.2 rfl
      { name := "claude-3-7-sonnet-latest", output_max_tokens := 8192,
        price_input := 3.0, price_output := 15.0 }
      (anthropic_models.drop 1) rfl⟩

/-- C9: the factory matches the provider id case-insensitively (via
lowercasing) against the fixed enumeration and returns the matching
freshly constructed strategy; every other id raises the
unknown-provider `ValueError`; in particular `"unknown-vendor"` raises. -/
theorem claim_C9 :
    ∀ (provider api_key : String),
      (pyLower provider = "anthropic" →
        create_strategy provider api_key = .ok (mkAnthropic api_key))
      ∧ (pyLower provider = "openai" →
        create_strategy provider api_key = .ok (mkOpenAI api_key))
      ∧ (pyLower provider = "deepseek" →
        create_strategy provider api_key = .ok (mkDeepseek api_key))
      ∧ (pyLower provider ∉ get_available_providers →
        create_strategy provider api_key
          = .error ("Неизвестный провайдер LLM: " ++ pyLower provider))
      ∧ create_strategy "unknown-vendor" "key"
          = .error "Неизвестный провайдер LLM: unknown-vendor" := by
  intro provider api_key
  refine ⟨?_, ?_, ?_, ?_, by decide⟩
  · intro h; simp [create_strategy, h]
  · intro h; simp [create_strategy, h]
  · intro h; simp [create_strategy, h]
  · intro h
    simp [get_available_providers] at h
    simp [create_strategy, h]

/-- C9, witness: a mixed-case known id constructs the matching strategy,
per Scenario E the unknown vendor raises. -/
theorem claim_C9_witness :
    create_strategy "AnThRoPiC" "key" = .ok (mkAnthropic "key") :=
  (claim_C9 "AnThRoPiC" "key").1 (by decide)

/-- A double whose every call reports the Anthropic truncation
sentinel. -/
def maxTokensOracle : Nat → ChunkResult :=
  constOracle (some "x") (some "max_tokens")
    { input_tokens := 1, output_tokens := 2,
      cache_create_tokens := 3, cache_read_tokens := 4 }

/-- A double whose every call reports the OpenAI/Deepseek truncation
sentinel. -/
def lengthOracle : Nat → ChunkResult :=
  constOracle (some "x") (some "length")
    { input_tokens := 1, output_tokens := 2,
      cache_create_tokens := 3, cache_read_tokens := 4 }

/-- C2: for every strategy, every `maxContinuationAttempts` N ≥ 1 and
every infinite sequence of double results, `generate_full_response`
terminates having made at most N `send_message` calls, and exactly N
when every call reports that provider's length-truncation sentinel. -/
theorem claim_C2 :
    ∀ (oracle : Nat → ChunkResult) (st : StrategyInstance)
      (sp im mn tmpl : String) (mt : Int) (tp : ℚ) (N : Int), 1 ≤ N →
      ((anthropic_generate_full_response oracle st sp im mn mt tp N tmpl).1.calls ≤ N.toNat
        ∧ ((∀ k, (oracle k).stop_reason = some "max_tokens") →
            (anthropic_generate_full_response oracle st sp im mn mt tp N tmpl).1.calls = N.toNat))
      ∧ ((openai_generate_full_response oracle st sp im mn mt tp N tmpl).1.calls ≤ N.toNat
        ∧ ((∀ k, (oracle k).stop_reason = some "length") →
            (openai_generate_full_response oracle st sp im mn mt tp N tmpl).1.calls = N.toNat))
      ∧ ((deepseek_generate_full_response oracle st sp im mn mt tp N tmpl).1.calls ≤ N.toNat
        ∧ ((∀ k, (oracle k).stop_reason = some "length") →
            (deepseek_generate_full_response oracle st sp im mn mt tp N tmpl).1.calls = N.toNat)) := by
  intro oracle st sp im mn tmpl mt tp N _
  exact ⟨⟨generate_calls_le "max_tokens" oracle st sp im mn mt tp N tmpl,
      fun htr => generate_calls_all_trunc "max_tokens" oracle st sp im mn mt tp N tmpl htr⟩,
    ⟨generate_calls_le "length" oracle st sp im mn mt tp N tmpl,
      fun htr => generate_calls_all_trunc "length" oracle st sp im mn mt tp N tmpl htr⟩,
    ⟨generate_calls_le "length" oracle st sp im mn mt tp N tmpl,
      fun htr => generate_calls_all_trunc "length" oracle st sp im mn mt tp N tmpl htr⟩⟩

/-- C2, witness: with a double that always reports `"max_tokens"` and
N = 2, the Anthropic loop makes at most (indeed exactly) 2 calls. -/
theorem claim_C2_witness :
    (anthropic_generate_full_response maxTokensOracle (mkAnthropic "k") "sys" "hi" "m"
        10 0 2 default_continuation_template).1.calls ≤ (2 : Int).toNat :=
  ((claim_C2 maxTokensOracle (mkAnthropic "k") "sys" "hi" "m"
      default_continuation_template 10 0 2 (by decide)).1).1

/-- C3: for every strategy and every sequence of double results, the
returned string is exactly the stripped concatenation, in call order, of
the contents of the calls made (null contents contributing nothing) —
nothing reordered, dropped or deduplicated. -/
theorem claim_C3 :
    ∀ (oracle : Nat → ChunkResult) (st : StrategyInstance)
      (sp im mn tmpl : String) (mt : Int) (tp : ℚ) (N : Int),
      (anthropic_generate_full_response oracle st sp im mn mt tp N tmpl).1.text
        = pyStrip (chunkConcat oracle 0
            ((anthropic_generate_full_response oracle st sp im mn mt tp N tmpl).1.calls))
      ∧ (openai_generate_full_response oracle st sp im mn mt tp N tmpl).1.text
        = pyStrip (chunkConcat oracle 0
            ((openai_generate_full_response oracle st sp im mn mt tp N tmpl).1.calls))
      ∧ (deepseek_generate_full_response oracle st sp im mn mt tp N tmpl).1.text
        = pyStrip (chunkConcat oracle 0
            ((deepseek_generate_full_response oracle st sp im mn mt tp N tmpl).1.calls)) :=
  fun oracle st sp im mn tmpl mt tp N =>
    ⟨generate_text_eq "max_tokens" oracle st sp im mn mt tp N tmpl,
     generate_text_eq "length" oracle st sp im mn mt tp N tmpl,
     generate_text_eq "length" oracle st sp im mn mt tp N tmpl⟩

/-- C4: after `generate_full_response` with any prior snapshot, each of
the four accessors reads exactly the sum, over the calls made, of that
call's reported counters — the aggregate overwrites any pre-call
snapshot values. -/
theorem claim_C4 :
    ∀ (oracle : Nat → ChunkResult) (st : StrategyInstance)
      (sp im mn tmpl : String) (mt : Int) (tp : ℚ) (N : Int),
      (get_input_tokens (anthropic_generate_full_response oracle st sp im mn mt tp N tmpl).2
          = (usageSum oracle 0
              ((anthropic_generate_full_response oracle st sp im mn mt tp N tmpl).1.calls)).input_tokens
        ∧ get_output_tokens (anthropic_generate_full_response oracle st sp im mn mt tp N tmpl).2
          = (usageSum oracle 0
              ((anthropic_generate_full_response oracle st sp im mn mt tp N tmpl).1.calls)).output_tokens
        ∧ get_cache_create_tokens (anthropic_generate_full_response oracle st sp im mn mt tp N tmpl).2
          = (usageSum oracle 0
              ((anthropic_generate_full_response oracle st sp im mn mt tp N tmpl).1.calls)).cache_create_tokens
        ∧ get_cache_read_tokens (anthropic_generate_full_response oracle st sp im mn mt tp N tmpl).2
          = (usageSum oracle 0
              ((anthropic_generate_full_response oracle st sp im mn mt tp N tmpl).1.calls)).cache_read_tokens)
      ∧ (get_input_tokens (openai_generate_full_response oracle st sp im mn mt tp N tmpl).2
          = (usageSum oracle 0
              ((openai_generate_full_response oracle st sp im mn mt tp N tmpl).1.calls)).input_tokens
        ∧ get_output_tokens (openai_generate_full_response oracle st sp im mn mt tp N tmpl).2
          = (usageSum oracle 0
              ((openai_generate_full_response oracle st sp im mn mt tp N tmpl).1.calls)).output_tokens
        ∧ get_cache_create_tokens (openai_generate_full_response oracle st sp im mn mt tp N tmpl).2
          = (usageSum oracle 0
              ((openai_generate_full_response oracle st sp im mn mt tp N tmpl).1.calls)).cache_create_tokens
        ∧ get_cache_read_tokens (openai_generate_full_response oracle st sp im mn mt tp N tmpl).2
          = (usageSum oracle 0
              ((openai_generate_full_response oracle st sp im mn mt tp N tmpl).1.calls)).cache_read_tokens)
      ∧ (get_input_tokens (deepseek_generate_full_response oracle st sp im mn mt tp N tmpl).2
          = (usageSum oracle 0
              ((deepseek_generate_full_response oracle st sp im mn mt tp N tmpl).1.calls)).input_tokens
        ∧ get_output_tokens (deepseek_generate_full_response oracle st sp im mn mt tp N tmpl).2
          = (usageSum oracle 0
              ((deepseek_generate_full_response oracle st sp im mn mt tp N tmpl).1.calls)).output_tokens
        ∧ get_cache_create_tokens (deepseek_generate_full_response oracle st sp im mn mt tp N tmpl).2
          = (usageSum oracle 0
              ((deepseek_generate_full_response oracle st sp im mn mt tp N tmpl).1.calls)).cache_create_tokens
        ∧ get_cache_read_tokens (deepseek_generate_full_response oracle st sp im mn mt tp N tmpl).2
          = (usageSum oracle 0
              ((deepseek_generate_full_response oracle st sp im mn mt tp N tmpl).1.calls)).cache_read_tokens) := by
  intro oracle st sp im mn tmpl mt tp N
  have ha := generate_final_state "max_tokens" oracle st sp im mn mt tp N tmpl
  have hb := generate_final_state "length" oracle st sp im mn mt tp N tmpl
  exact ⟨⟨ha.2.1, ha.2.2.1, ha.2.2.2.1, ha.2.2.2.2⟩,
    ⟨hb.2.1, hb.2.2.1, hb.2.2.2.1, hb.2.2.2.2⟩,
    ⟨hb.2.1, hb.2.2.1, hb.2.2.2.1, hb.2.2.2.2⟩⟩

/-- C8: in every strategy's loop the conversation trace is exactly the
initial user message followed by one (assistant chunk, user
continuation-template) pair per continuation round — so its length is
`1 + 2k` after `k` rounds (`k = calls - 1`); and each strategy tests the
raw stop reason against its own provider sentinel: with a double always
reporting `"max_tokens"` and 2 allowed attempts the Anthropic loop
continues (2 calls) while the OpenAI and Deepseek loops stop after 1,
and symmetrically for `"length"`. -/
theorem claim_C8 :
    (∀ (oracle : Nat → ChunkResult) (st : StrategyInstance)
      (sp im mn tmpl : String) (mt : Int) (tp : ℚ) (N : Int),
      ((anthropic_generate_full_response oracle st sp im mn mt tp N tmpl).1.conv
          = [{ role := "user", content := im }] ++ contPairs tmpl oracle 0
              ((anthropic_generate_full_response oracle st sp im mn mt tp N tmpl).1.calls - 1)
        ∧ (anthropic_generate_full_response oracle st sp im mn mt tp N tmpl).1.conv.length
          = 1 + 2 * ((anthropic_generate_full_response oracle st sp im mn mt tp N tmpl).1.calls - 1))
      ∧ ((openai_generate_full_response oracle st sp im mn mt tp N tmpl).1.conv
          = [{ role := "user", content := im }] ++ contPairs tmpl oracle 0
              ((openai_generate_full_response oracle st sp im mn mt tp N tmpl).1.calls - 1)
        ∧ (openai_generate_full_response oracle st sp im mn mt tp N tmpl).1.conv.length
          = 1 + 2 * ((openai_generate_full_response oracle st sp im mn mt tp N tmpl).1.calls - 1))
      ∧ ((deepseek_generate_full_response oracle st sp im mn mt tp N tmpl).1.conv
          = [{ role := "user", content := im }] ++ contPairs tmpl oracle 0
              ((deepseek_generate_full_response oracle st sp im mn mt tp N tmpl).1.calls - 1)
        ∧ (deepseek_generate_full_response oracle st sp im mn mt tp N tmpl).1.conv.length
          = 1 + 2 * ((deepseek_generate_full_response oracle st sp im mn mt tp N tmpl).1.calls - 1)))
    ∧ (anthropic_generate_full_response maxTokensOracle (mkAnthropic "k") "s" "hi" "m"
        10 0 2 default_continuation_template).1.calls = 2
    ∧ (anthropic_generate_full_response lengthOracle (mkAnthropic "k") "s" "hi" "m"
        10 0 2 default_continuation_template).1.calls = 1
    ∧ (openai_generate_full_response maxTokensOracle (mkOpenAI "k") "s" "hi" "m"
        10 0 2 default_continuation_template).1.calls = 1
    ∧ (openai_generate_full_response lengthOracle (mkOpenAI "k") "s" "hi" "m"
        10 0 2 default_continuation_template).1.calls = 2
    ∧ (deepseek_generate_full_response maxTokensOracle (mkDeepseek "k") "s" "hi" "m"
        10 0 2 default_continuation_template).1.calls = 1
    ∧ (deepseek_generate_full_response lengthOracle (mkDeepseek "k") "s" "hi" "m"
        10 0 2 default_continuation_template).1.calls = 2 := by
  refine ⟨?_, by decide, by decide, by decide, by decide, by decide, by decide⟩
  intro oracle st sp im mn tmpl mt tp N
  have ha := generate_conv_eq "max_tokens" oracle st sp im mn mt tp N tmpl
  have hb := generate_conv_eq "length" oracle st sp im mn mt tp N tmpl
  refine ⟨⟨ha, ?_⟩, ⟨hb, ?_⟩, ⟨hb, ?_⟩⟩ <;>
    simp only [anthropic_generate_full_response, openai_generate_full_response,
      deepseek_generate_full_response]
  · rw [ha]; simp [contPairs_length]; omega
  · rw [hb]; simp [contPairs_length]; omega
  · rw [hb]; simp [contPairs_length]; omega

/-- C10: every `send_message` sets the snapshot's model name before the
network call, so a `ProviderError` leaves the new model name with the
previous call's counters untouched; and `generate_full_response` with
`maxContinuationAttempts ≤ 0` makes zero calls, returns the empty
string, and overwrites all four counters with `0`. -/
theorem claim_C10 :
    ∀ (st : StrategyInstance) (sp mn : String) (messages : List Msg) (mt : Int) (tp : ℚ),
      anthropic_send_message (failingClient AnthropicResponse) st sp messages mn mt tp
        = ({ st with model := some mn }, .error ())
      ∧ openai_send_message (failingOpenAIClient OpenAIResponse) st sp messages mn mt tp
        = ({ st with model := some mn }, .error ())
      ∧ deepseek_send_message (failingDeepseekClient DeepseekResponse) st sp messages mn mt tp
        = ({ st with model := some mn }, .error ())
      ∧ (∀ (oracle : Nat → ChunkResult) (im tmpl : String) (N : Int), N ≤ 0 →
          ((anthropic_generate_full_response oracle st sp im mn mt tp N tmpl).1.calls = 0
            ∧ (anthropic_generate_full_response oracle st sp im mn mt tp N tmpl).1.text = ""
            ∧ get_input_tokens (anthropic_generate_full_response oracle st sp im mn mt tp N tmpl).2 = 0
            ∧ get_output_tokens (anthropic_generate_full_response oracle st sp im mn mt tp N tmpl).2 = 0
            ∧ get_cache_create_tokens (anthropic_generate_full_response oracle st sp im mn mt tp N tmpl).2 = 0
            ∧ get_cache_read_tokens (anthropic_generate_full_response oracle st sp im mn mt tp N tmpl).2 = 0)
          ∧ ((openai_generate_full_response oracle st sp im mn mt tp N tmpl).1.calls = 0
            ∧ (openai_generate_full_response oracle st sp im mn mt tp N tmpl).1.text = ""
            ∧ get_input_tokens (openai_generate_full_response oracle st sp im mn mt tp N tmpl).2 = 0
            ∧ get_output_tokens (openai_generate_full_response oracle st sp im mn mt tp N tmpl).2 = 0
            ∧ get_cache_create_tokens (openai_generate_full_response oracle st sp im mn mt tp N tmpl).2 = 0
            ∧ get_cache_read_tokens (openai_generate_full_response oracle st sp im mn mt tp N tmpl).2 = 0)
          ∧ ((deepseek_generate_full_response oracle st sp im mn mt tp N tmpl).1.calls = 0
            ∧ (deepseek_generate_full_response oracle st sp im mn mt tp N tmpl).1.text = ""
            ∧ get_input_tokens (deepseek_generate_full_response oracle st sp im mn mt tp N tmpl).2 = 0
            ∧ get_output_tokens (deepseek_generate_full_response oracle st sp im mn mt tp N tmpl).2 = 0
            ∧ get_cache_create_tokens (deepseek_generate_full_response oracle st sp im mn mt tp N tmpl).2 = 0
            ∧ get_cache_read_tokens (deepseek_generate_full_response oracle st sp im mn mt tp N tmpl).2 = 0)) := by
  intro st sp mn messages mt tp
  refine ⟨rfl, rfl, rfl, ?_⟩
  intro oracle im tmpl N hN
  exact ⟨generate_nonpos "max_tokens" oracle st sp im mn mt tp N tmpl hN,
    generate_nonpos "length" oracle st sp im mn mt tp N tmpl hN,
    generate_nonpos "length" oracle st sp im mn mt tp N tmpl hN⟩

/-- C10, witness: a concrete failing call and a concrete non-positive
attempt budget. -/
theorem claim_C10_witness :
    (anthropic_generate_full_response maxTokensOracle (mkAnthropic "k") "sys" "hi" "m"
        10 0 0 default_continuation_template).1.calls = 0 :=
  ((claim_C10 (mkAnthropic "k") "sys" "m" [] 10 0).2.2.2 maxTokensOracle "hi"
      default_continuation_template 0 (by decide)).1.1
